import Mathlib

/-!
Verification development for the SpaceX ETL repository
(`SpaceX/loading/database_operations.py` and its callers).

The Python module is shallowly embedded: JSON values decoded by `json.load`
become the inductive `JValue`; the pure string/typing logic of
`_convert_schema_to_sql_types`, `create_table_if_not_exists` and
`insert_or_update` becomes executable Lean functions; the relational store
is modelled by an explicit table state (a list of rows over the live column
set), with the semantics of the issued `INSERT` / `INSERT ... ON CONFLICT`
statements made explicit.  Python exceptions become an error type whose
constructors are indexed by the raise site.
-/

namespace SpaceXETL

/-- A JSON value as produced by Python's `json.load`.  JSON numbers are
modelled as integers, which covers every value the claims exercise. -/
inductive JValue where
  | null
  | bool (b : Bool)
  | num (n : Int)
  | str (s : String)
  | arr (xs : List JValue)
  | obj (fields : List (String × JValue))

mutual

/-- Structural equality of JSON values (Python `==` on decoded values). -/
def JValue.beq : JValue → JValue → Bool
  | .null, .null => true
  | .bool a, .bool b => a == b
  | .num a, .num b => a == b
  | .str a, .str b => a == b
  | .arr xs, .arr ys => JValue.beqList xs ys
  | .obj fs, .obj gs => JValue.beqFields fs gs
  | _, _ => false

def JValue.beqList : List JValue → List JValue → Bool
  | [], [] => true
  | x :: xs, y :: ys => JValue.beq x y && JValue.beqList xs ys
  | _, _ => false

def JValue.beqFields : List (String × JValue) → List (String × JValue) → Bool
  | [], [] => true
  | (k, v) :: fs, (l, w) :: gs => k == l && JValue.beq v w && JValue.beqFields fs gs
  | _, _ => false

end

/-- Python truthiness (`bool(x)`) of a decoded JSON value: `None`, `False`,
`0`, `""`, `[]` and `{}` are falsy, everything else truthy. -/
def truthy : JValue → Bool
  | .null => false
  | .bool b => b
  | .num n => n != 0
  | .str s => !s.isEmpty
  | .arr xs => !xs.isEmpty
  | .obj fs => !fs.isEmpty

/-- Python `d[k]` / `d.get(k)` on a decoded JSON object: association-list
lookup over the object's fields. -/
def getKey (fields : List (String × JValue)) (k : String) : Option JValue :=
  match fields with
  | [] => none
  | (l, v) :: rest => if l == k then some v else getKey rest k

/-- Python `k in d` on a decoded JSON object. -/
def hasKey (fields : List (String × JValue)) (k : String) : Bool :=
  (getKey fields k).isSome

mutual

/-- Python `repr(x)` for a decoded JSON value, used for the elements of
containers in `str(...)`.  Exotic string escaping is not modelled, which
is irrelevant to the values the program handles. -/
def pyRepr : JValue → String
  | .null => "None"
  | .bool true => "True"
  | .bool false => "False"
  | .num n => toString n
  | .str s => "\x27" ++ s ++ "\x27"
  | .arr xs => "[" ++ pyStrListElems xs ++ "]"
  | .obj fs => "\x7b" ++ pyStrFieldElems fs ++ "\x7d"

def pyStrListElems : List JValue → String
  | [] => ""
  | [x] => pyRepr x
  | x :: xs => pyRepr x ++ ", " ++ pyStrListElems xs

def pyStrFieldElems : List (String × JValue) → String
  | [] => ""
  | [(k, v)] => "\x27" ++ k ++ "\x27: " ++ pyRepr v
  | (k, v) :: fs => "\x27" ++ k ++ "\x27: " ++ pyRepr v ++ ", " ++ pyStrFieldElems fs

end

/-- Python `str(x)` for a decoded JSON value (used in the `DEFAULT {value}`
f-string and in `field_type = str(field_info)`).  `str` agrees with `repr`
except on strings, which it returns unquoted, and containers print their
elements with `repr`. -/
def pyStr : JValue → String
  | .null => "None"
  | .bool true => "True"
  | .bool false => "False"
  | .num n => toString n
  | .str s => s
  | .arr xs => "[" ++ pyStrListElems xs ++ "]"
  | .obj fs => "\x7b" ++ pyStrFieldElems fs ++ "\x7d"

/-- Python `sep.join(parts)`. -/
def pyJoin (sep : String) : List String → String
  | [] => ""
  | [x] => x
  | x :: xs => x ++ sep ++ pyJoin sep xs

/-- One character of Python's default `str.strip()` whitespace set. -/
def isPyStripSpace (c : Char) : Bool :=
  c == ' ' || c == '\t' || c == '\n' || c == '\r'

/-- Python `s.strip()`. -/
def pyStrip (s : String) : String :=
  ⟨((s.data.dropWhile isPyStripSpace).reverse.dropWhile isPyStripSpace).reverse⟩

/-- Python `s.lower()` (character-wise lower-casing; the type names the
program lower-cases are ASCII). -/
def pyLower (s : String) : String :=
  ⟨s.data.map Char.toLower⟩

/-- The Python exceptions the module can raise, indexed by raise site.
The spec's error taxonomy names these sites: `schemaShape` is the
`ValueError` at `database_operations.py:51` ("Could not find properties"),
`emptyColumns` the `ValueError` at line 116, `noColumns` the `ValueError`
at line 158 ("No columns found"), `recordShape` the `AttributeError`
raised by `record.get` on a non-dict record in the load loop (line 164),
and `attributeError` covers the remaining `AttributeError` sites in the
schema conversion (`schema_data.keys()` inside the line-51 f-string when
the document is not a dict, and `properties.items()` at line 55 when the
selected candidate is truthy but not a dict). -/
inductive PyErr where
  | schemaShape
  | emptyColumns
  | noColumns
  | recordShape
  | attributeError
deriving DecidableEq

/-! ## Type Mapper (`_convert_schema_to_sql_types`, lines 18-104) -/

/-- `type_mapping.get(field_type, 'TEXT')` over the dict literal at lines
21-36.  The capitalised keys are kept for fidelity although they are
unreachable after `field_type.lower()`. -/
def type_mapping_get (field_type : String) : String :=
  if field_type == "String" then "TEXT"
  else if field_type == "string" then "TEXT"
  else if field_type == "Number" then "NUMERIC"
  else if field_type == "number" then "NUMERIC"
  else if field_type == "Boolean" then "BOOLEAN"
  else if field_type == "boolean" then "BOOLEAN"
  else if field_type == "UUID" then "JSONB"
  else if field_type == "uuid" then "JSONB"
  else if field_type == "Date" then "TIMESTAMP"
  else if field_type == "date" then "TIMESTAMP"
  else if field_type == "Object" then "JSONB"
  else if field_type == "object" then "JSONB"
  else if field_type == "Array" then "JSONB"
  else if field_type == "array" then "JSONB"
  else "TEXT"

/-- Python `isinstance(x, (dict, list))` on a decoded JSON value. -/
def isStructural : JValue → Bool
  | .obj _ => true
  | .arr _ => true
  | _ => false

/-- Lines 62-75: compute the normalized `field_type` string for one field
descriptor.  A dict descriptor reads its `type` key (`$ref` or a missing
`type` give the literal `'TEXT'`), a list descriptor gives `'JSONB'`, any
other shape goes through `str(...)`; the result is lower-cased when it is
a string and replaced by `'text'` otherwise. -/
def field_type_of (field_info : JValue) : String :=
  let ft : JValue :=
    match field_info with
    | .obj fs =>
      (match getKey fs "type" with
       | some t => t
       | none => if hasKey fs "$ref" then .str "TEXT" else .str "TEXT")
    | .arr _ => .str "JSONB"
    | v => .str (pyStr v)
  match ft with
  | .str s => pyLower s
  | _ => "text"

/-- Lines 77-81: the SQL type of one field.  Note the source condition
`field_type in ['object', 'array'] or isinstance(field_info, (dict, list))`:
the second disjunct is true for *every* dict-shaped field descriptor, which
forces `JSONB` regardless of the declared scalar type. -/
def sql_type_of (field_info : JValue) (field_type : String) : String :=
  if (field_type == "object" || field_type == "array") || isStructural field_info then
    "JSONB"
  else
    type_mapping_get field_type

/-- Lines 83-99: constraint clauses for one field descriptor.  Python's
`.get('default')` returns `None` both for an absent key and for a JSON
`null` value, so the `elif default_value is None` branch of the source is
dead and a `null` default emits no clause. -/
def constraints_of (field_info : JValue) : List String :=
  match field_info with
  | .obj fs =>
    (if truthy ((getKey fs "required").getD (.bool false)) then ["NOT NULL"] else [])
    ++ (if truthy ((getKey fs "unique").getD (.bool false)) then ["UNIQUE"] else [])
    ++ (match getKey fs "default" with
        | none => []
        | some .null => []
        | some (.str s) => ["DEFAULT \x27" ++ s ++ "\x27"]
        | some v => ["DEFAULT " ++ pyStr v])
  | _ => []

/-- Lines 59 and 101: one generated column spec: the quoted field name, the
SQL type and the space-joined constraints, space-separated and stripped. -/
def column_spec (field_name : String) (field_info : JValue) : String :=
  let quoted_field_name := "\"" ++ field_name ++ "\""
  pyStrip (quoted_field_name ++ " " ++ sql_type_of field_info (field_type_of field_info)
           ++ " " ++ pyJoin " " (constraints_of field_info))

/-- Lines 41-48: locate the candidate field mapping.  The choice is by key
*presence*: the value under `'properties'` if that key exists, else under
`'fields'` if that key exists, else the document itself; a non-dict
document yields no candidate. -/
def selected_properties (schema_data : JValue) : Option JValue :=
  match schema_data with
  | .obj fs =>
    some (match getKey fs "properties" with
          | some p => p
          | none =>
            match getKey fs "fields" with
            | some f => f
            | none => schema_data)
  | _ => none

/-- Lines 18-104, `_convert_schema_to_sql_types`.  When no candidate exists
(non-dict document) the raise at line 51 evaluates
`list(schema_data.keys())` inside its f-string, so the surfaced exception
is an `AttributeError`, not the `ValueError`; when the candidate is falsy
and the document is a dict the `ValueError` ("SchemaShapeError") is
raised; when the candidate is truthy but not a dict, `properties.items()`
raises an `AttributeError`. -/
def convert_schema_to_sql_types (schema_data : JValue) : Except PyErr (List String) :=
  match selected_properties schema_data with
  | none => Except.error PyErr.attributeError
  | some properties =>
    if truthy properties then
      match properties with
      | .obj fs => Except.ok (fs.map (fun p => column_spec p.1 p.2))
      | _ => Except.error PyErr.attributeError
    else
      Except.error PyErr.schemaShape

/-! ## DDL Generator (`create_table_if_not_exists`, lines 106-135) -/

/-- Lines 118-124: the `CREATE TABLE IF NOT EXISTS` statement text, with
the triple-quoted f-string's whitespace reproduced. -/
def create_table_sql (table_name : String) (sql_columns : List String) : String :=
  "\n            CREATE TABLE IF NOT EXISTS " ++ table_name
  ++ " (\n                id SERIAL PRIMARY KEY,\n                "
  ++ pyJoin ", " sql_columns
  ++ ",\n                created_at TIMESTAMP DEFAULT CURRENT_TIMESTAMP\n            );\n            "

/-- Lines 106-135: schema conversion followed by the empty-column guard at
lines 115-116; on success the statement text that would be executed is
returned. -/
def create_table_if_not_exists (table_name : String) (schema_data : JValue) :
    Except PyErr String := do
  let sql_columns ← convert_schema_to_sql_types schema_data
  if sql_columns.isEmpty then
    Except.error PyErr.emptyColumns
  else
    Except.ok (create_table_sql table_name sql_columns)

/-! ## Upsert Engine (`insert_or_update`, lines 137-203) -/

/-- A value as bound to a statement placeholder by `psycopg2`: SQL `NULL`
for Python `None`, the scalar itself for scalars, and the serialized
document (`psycopg2.extras.Json` wrapper, stored as `JSONB`) for dicts and
lists. -/
inductive SqlValue where
  | null
  | boolV (b : Bool)
  | numV (n : Int)
  | strV (s : String)
  | jsonV (v : JValue)

/-- Equality of stored values as the relational store compares them. -/
def SqlValue.beqv : SqlValue → SqlValue → Bool
  | .null, .null => true
  | .boolV a, .boolV b => a == b
  | .numV a, .numV b => a == b
  | .strV a, .strV b => a == b
  | .jsonV a, .jsonV b => JValue.beq a b
  | _, _ => false

instance : BEq SqlValue := ⟨SqlValue.beqv⟩

/-- The catalog query at lines 149-154 enumerates a table's columns
excluding the synthetic `id` and `created_at`; given the table's full
column list, the usable (live) columns are everything else. -/
def liveColumns (all_columns : List String) : List String :=
  all_columns.filter (fun c => !(c == "id" || c == "created_at"))

/-- Pass-through of a non-container value to its bound form (the `else`
branch at line 170 appends the Python value itself).  The container cases
are unreachable at the call site, which guards with
`isinstance(value, (dict, list))`; they are given the same serialized
form for totality. -/
def scalarPass : JValue → SqlValue
  | .null => .null
  | .bool b => .boolV b
  | .num n => .numV n
  | .str s => .strV s
  | .arr xs => .jsonV (.arr xs)
  | .obj fs => .jsonV (.obj fs)

/-- Lines 163-170: the value bound for one live column of one record:
`value = record.get(col)` (absent key → `None` → SQL `NULL`), then
`Json(value)` when the value is a dict or list, else the value itself. -/
def bindValue (record_fields : List (String × JValue)) (col : String) : SqlValue :=
  match getKey record_fields col with
  | none => SqlValue.null
  | some v => if isStructural v then SqlValue.jsonV v else scalarPass v

/-- Lines 175-180: the conflict key, chosen from the live column set:
`'serial'` if present, else `'name'` if present, else none. -/
def unique_field (columns_info : List String) : Option String :=
  if columns_info.contains "serial" then some "serial"
  else if columns_info.contains "name" then some "name"
  else none

/-- A stored row, restricted to the live columns (the synthetic `id` and
`created_at` columns are outside the model). -/
abbrev Row := List (String × SqlValue)

/-- The row a record binds: live columns paired with their bound values. -/
def boundRow (columns_info : List String) (record_fields : List (String × JValue)) : Row :=
  columns_info.zip (columns_info.map (bindValue record_fields))

/-- Whether an inserted row with key value `keyVal` conflicts with the
stored row `r` under a unique index on `key`: the store compares the two
key values, and SQL `NULL` never conflicts with anything. -/
def rowConflicts (key : String) (keyVal : SqlValue) (r : Row) : Bool :=
  keyVal != SqlValue.null && List.lookup key r == some keyVal

/-- Store semantics of the statement at lines 183-189,
`INSERT INTO t (cols) VALUES (vals) ON CONFLICT (key) DO UPDATE
SET (cols) = (vals)`, under the premise that the store enforces a unique
index on `key`: if the new row's key value conflicts with a stored row,
every column of that row is overwritten with the new values; otherwise
the new row is appended. -/
def execUpsert (key : String) (columns_info : List String) (values : List SqlValue)
    (t : List Row) : List Row :=
  let newRow := columns_info.zip values
  let keyVal := (List.lookup key newRow).getD SqlValue.null
  if t.any (rowConflicts key keyVal) then
    t.map (fun r => if rowConflicts key keyVal r then newRow else r)
  else
    t ++ [newRow]

/-- Store semantics of the plain `INSERT` at lines 191-195: the new row is
appended unconditionally. -/
def execPlainInsert (columns_info : List String) (values : List SqlValue)
    (t : List Row) : List Row :=
  t ++ [columns_info.zip values]

/-- Lines 143-144: `if not isinstance(data, list): data = [data]`. -/
def normalize_records : JValue → List JValue
  | .arr xs => xs
  | v => [v]

/-- Lines 161-195: processing of one record against the in-transaction
table state.  A non-dict record fails at `record.get(col)` with an
`AttributeError` (the caller guarantees at least one live column, so the
loop body runs); a dict record binds one value per live column and issues
the upsert or the plain insert according to the conflict key. -/
def process_record (columns_info : List String) (t : List Row) (record : JValue) :
    Except PyErr (List Row) :=
  match record with
  | .obj fs =>
    let values := columns_info.map (bindValue fs)
    match unique_field columns_info with
    | some uf => Except.ok (execUpsert uf columns_info values t)
    | none => Except.ok (execPlainInsert columns_info values t)
  | _ => Except.error PyErr.recordShape

/-- The `for record in data:` loop, threading the in-transaction state;
the first failing record aborts the loop with its exception. -/
def run_records (columns_info : List String) (t : List Row) :
    List JValue → Except PyErr (List Row)
  | [] => Except.ok t
  | r :: rs =>
    match process_record columns_info t r with
    | Except.ok t' => run_records columns_info t' rs
    | Except.error e => Except.error e

/-- Lines 137-203, `insert_or_update`.  `columns_info` is the live column
list the catalog query returns and `committed` the table's current rows.
The guard at lines 157-158 raises when no live column exists; otherwise
every record is processed inside one transaction and `conn.commit()`
(line 197) publishes the final state.  On any exception the connection
context manager rolls the transaction back, so the observable table state
is the original one.  The result pairs the call's outcome with the
observable table state after the call. -/
def insert_or_update (columns_info : List String) (committed : List Row)
    (data : JValue) : Except PyErr Unit × List Row :=
  let records := normalize_records data
  let result :=
    if columns_info.isEmpty then Except.error PyErr.noColumns
    else run_records columns_info committed records
  match result with
  | Except.ok t => (Except.ok (), t)
  | Except.error e => (Except.error e, committed)

/-! ## Statement texts issued by `insert_or_update` -/

/-- Line 172: the comma-joined list of double-quoted live column names. -/
def columns_str (columns_info : List String) : String :=
  pyJoin "," (columns_info.map (fun col => "\"" ++ col ++ "\""))

/-- Line 173: `','.join(['%s'] * len(columns_info))`. -/
def placeholders_str (columns_info : List String) : String :=
  pyJoin "," (List.replicate columns_info.length "%s")

/-- Lines 149-154: the catalog query text; the table name is embedded in a
string literal, not an identifier position. -/
def catalog_query_sql (table_name : String) : String :=
  "\n                        SELECT column_name, data_type \n                        FROM information_schema.columns \n                        WHERE table_name = \x27" ++ table_name
  ++ "\x27\n                        AND column_name NOT IN (\x27id\x27, \x27created_at\x27);\n                    "

/-- Lines 183-188: the upsert statement text. -/
def upsert_sql (table_name : String) (columns_info : List String)
    (unique_f : String) : String :=
  "\n                                INSERT INTO " ++ table_name
  ++ " (" ++ columns_str columns_info
  ++ ")\n                                VALUES (" ++ placeholders_str columns_info
  ++ ")\n                                ON CONFLICT (\"" ++ unique_f
  ++ "\") DO UPDATE\n                                SET (" ++ columns_str columns_info
  ++ ") = (" ++ placeholders_str columns_info
  ++ ");\n                            "

/-- Lines 191-194: the plain insert statement text. -/
def plain_insert_sql (table_name : String) (columns_info : List String) : String :=
  "\n                                INSERT INTO " ++ table_name
  ++ " (" ++ columns_str columns_info
  ++ ")\n                                VALUES (" ++ placeholders_str columns_info
  ++ ");\n                            "

/-! ## Substring machinery for statements about identifier quoting -/

/-- `startsWithSeg hay pat` : `pat` is an initial segment of `hay`. -/
def startsWithSeg : List Char → List Char → Bool
  | _, [] => true
  | [], _ :: _ => false
  | a :: as, b :: bs => a == b && startsWithSeg as bs

/-- `containsSeg hay pat` : `pat` occurs contiguously inside `hay`. -/
def containsSeg : List Char → List Char → Bool
  | [], pat => startsWithSeg [] pat
  | a :: t, pat => startsWithSeg (a :: t) pat || containsSeg t pat

/-- String-level contiguous-substring test. -/
def containsStr (hay pat : String) : Bool :=
  containsSeg hay.data pat.data

theorem strData_append (s t : String) : (s ++ t).data = s.data ++ t.data := rfl

theorem startsWithSeg_append {l p : List Char} (r : List Char)
    (h : startsWithSeg l p = true) : startsWithSeg (l ++ r) p = true := by
  induction p generalizing l with
  | nil => simp [startsWithSeg]
  | cons b bs ih =>
    cases l with
    | nil => simp [startsWithSeg] at h
    | cons a as =>
      simp only [List.cons_append]
      simp only [startsWithSeg, Bool.and_eq_true] at h ⊢
      exact ⟨h.1, ih h.2⟩

theorem startsWithSeg_self (l : List Char) : startsWithSeg l l = true := by
  induction l with
  | nil => simp [startsWithSeg]
  | cons a as ih => simp [startsWithSeg, ih]

theorem startsWithSeg_self_append (a b : List Char) : startsWithSeg (a ++ b) a = true :=
  startsWithSeg_append b (startsWithSeg_self a)

theorem startsWithSeg_append_both (a : List Char) {b c : List Char}
    (h : startsWithSeg b c = true) : startsWithSeg (a ++ b) (a ++ c) = true := by
  induction a with
  | nil => simpa using h
  | cons x xs ih => simp [startsWithSeg, ih]

theorem containsSeg_of_startsWith {hay pat : List Char}
    (h : startsWithSeg hay pat = true) : containsSeg hay pat = true := by
  cases hay with
  | nil => simpa [containsSeg] using h
  | cons a t => simp [containsSeg, h]

theorem containsSeg_nilPat (hay : List Char) : containsSeg hay [] = true :=
  containsSeg_of_startsWith (by simp [startsWithSeg])

theorem containsSeg_append_right (a : List Char) {b p : List Char}
    (h : containsSeg b p = true) : containsSeg (a ++ b) p = true := by
  induction a with
  | nil => simpa using h
  | cons x xs ih =>
    simp only [List.cons_append, containsSeg, Bool.or_eq_true]
    exact Or.inr ih

theorem containsSeg_append_left {a p : List Char} (b : List Char)
    (h : containsSeg a p = true) : containsSeg (a ++ b) p = true := by
  induction a with
  | nil =>
    cases p with
    | nil => simpa using containsSeg_nilPat b
    | cons q qs => simp [containsSeg, startsWithSeg] at h
  | cons x xs ih =>
    simp only [containsSeg, Bool.or_eq_true] at h
    rcases h with h | h
    · exact containsSeg_of_startsWith (startsWithSeg_append b h)
    · simp only [List.cons_append, containsSeg, Bool.or_eq_true]
      exact Or.inr (ih h)

theorem containsSeg_pyJoin (sep : String) (l : List String) (x : String)
    (hx : x ∈ l) : containsSeg (pyJoin sep l).data x.data = true := by
  induction l with
  | nil => cases hx
  | cons a t ih =>
    cases t with
    | nil =>
      have hxa : x = a := by simpa using hx
      subst hxa
      exact containsSeg_of_startsWith (startsWithSeg_self _)
    | cons b ts =>
      have hj : pyJoin sep (a :: b :: ts) = a ++ sep ++ pyJoin sep (b :: ts) := rfl
      rw [hj]
      simp only [strData_append, List.append_assoc]
      cases hx with
      | head =>
        exact containsSeg_append_left _
          (containsSeg_of_startsWith (startsWithSeg_self _))
      | tail _ hmem =>
        exact containsSeg_append_right _ (containsSeg_append_right _ (ih hmem))

theorem containsSeg_columns_str (columns_info : List String) (c : String)
    (hc : c ∈ columns_info) :
    containsSeg (columns_str columns_info).data ("\"" ++ c ++ "\"").data = true :=
  containsSeg_pyJoin "," (columns_info.map (fun col => "\"" ++ col ++ "\""))
    ("\"" ++ c ++ "\"") (List.mem_map_of_mem _ hc)

/-- Bound key values the idempotence statements quantify over: a non-null
scalar (boolean, numeric or text), matching SQL equality semantics for a
natural-key column (SQL `NULL` compares equal to nothing). -/
def isScalarKey : SqlValue → Bool
  | .boolV _ => true
  | .numV _ => true
  | .strV _ => true
  | _ => false

/-- Whether a decoded JSON value is an object (one loadable record). -/
def isObjJ : JValue → Bool
  | .obj _ => true
  | _ => false

/-- The claim's well-shapedness condition on the `records` input: an
object, or a list of objects. -/
def recordsWellShaped : JValue → Bool
  | .arr xs => xs.all isObjJ
  | v => isObjJ v

theorem lookup_zip_map {β : Type} (cols : List String) (f : String → β) (c : String)
    (hc : c ∈ cols) :
    List.lookup c (cols.zip (cols.map f)) = some (f c) := by
  induction cols with
  | nil => cases hc
  | cons a as ih =>
    by_cases hca : a = c
    · subst hca
      simp [List.lookup]
    · have hmem : c ∈ as := by
        cases hc with
        | head => exact absurd rfl hca
        | tail _ h => exact h
      have hba : (c == a) = false := by
        simp [Ne.symm hca]
      simp only [List.lookup, hba]
      exact ih hmem

theorem filter_map_replace {α : Type} (p : α → Bool) (nr : α) (hnr : p nr = true)
    (l : List α) :
    (l.map (fun r => if p r then nr else r)).filter p
      = List.replicate (l.filter p).length nr := by
  induction l with
  | nil => simp
  | cons a l ih =>
    by_cases hpa : p a = true
    · simp [hpa, hnr, ih, List.replicate_succ]
    · simp only [Bool.not_eq_true] at hpa
      simp [hpa, ih]

theorem map_replace_of_filter_nil {α : Type} (p : α → Bool) (nr : α) (l : List α)
    (h : l.filter p = []) : l.map (fun r => if p r then nr else r) = l := by
  induction l with
  | nil => simp
  | cons a l ih =>
    by_cases hpa : p a = true
    · rw [List.filter_cons_of_pos hpa] at h
      cases h
    · rw [List.filter_cons_of_neg (by simp [hpa])] at h
      simp [hpa, ih h]

theorem map_replace_of_filter_singleton {α : Type} (p : α → Bool) (nr : α) (l : List α)
    (h : l.filter p = [nr]) : l.map (fun r => if p r then nr else r) = l := by
  induction l with
  | nil => cases h
  | cons a l ih =>
    by_cases hpa : p a = true
    · rw [List.filter_cons_of_pos hpa] at h
      obtain ⟨ha, hl⟩ : a = nr ∧ l.filter p = [] := by
        constructor
        · exact (List.cons.injEq _ _ _ _ ▸ h).1
        · exact (List.cons.injEq _ _ _ _ ▸ h).2
      subst ha
      simp [hpa, map_replace_of_filter_nil p a l hl]
    · rw [List.filter_cons_of_neg (by simp [hpa])] at h
      simp [hpa, ih h]

theorem filter_eq_nil_of_any_false {α : Type} (p : α → Bool) (l : List α)
    (h : l.any p = false) : l.filter p = [] := by
  induction l with
  | nil => rfl
  | cons a l ih =>
    simp only [List.any_cons, Bool.or_eq_false_iff] at h
    rw [List.filter_cons_of_neg (by simp [h.1])]
    exact ih h.2

theorem beqv_self_of_scalar {v : SqlValue} (h : isScalarKey v = true) : (v == v) = true := by
  cases v <;> simp_all [isScalarKey, BEq.beq, SqlValue.beqv]

theorem scalar_ne_null {v : SqlValue} (h : isScalarKey v = true) :
    (v != SqlValue.null) = true := by
  cases v <;> simp_all [isScalarKey, bne, BEq.beq, SqlValue.beqv]

theorem some_beq_some {α : Type} [BEq α] (a b : α) :
    ((some a == some b) : Bool) = (a == b) := rfl

theorem unique_field_mem {cols : List String} {k : String}
    (h : unique_field cols = some k) : k ∈ cols := by
  unfold unique_field at h
  split_ifs at h with h1 h2
  · cases h
    exact List.elem_iff.mp h1
  · cases h
    exact List.elem_iff.mp h2

/-- After an upsert whose non-null key value occurs at most once in the
table, exactly one row carries that key value: the freshly bound row. -/
theorem execUpsert_filter_step (k : String) (cols : List String) (vals : List SqlValue)
    (v : SqlValue) (hlook : List.lookup k (cols.zip vals) = some v)
    (hvnull : (v != SqlValue.null) = true) (hvself : (v == v) = true)
    (s : List Row)
    (hcnt : (s.filter (fun r => List.lookup k r == some v)).length ≤ 1) :
    (execUpsert k cols vals s).filter (fun r => List.lookup k r == some v)
      = [cols.zip vals] := by
  have hpnr : (List.lookup k (cols.zip vals) == some v) = true := by
    rw [hlook, some_beq_some]
    exact hvself
  have hrc : rowConflicts k v = (fun r => List.lookup k r == some v) := by
    funext r
    simp [rowConflicts, hvnull]
  simp only [execUpsert, hlook, Option.getD, hrc]
  by_cases hany : s.any (fun r => List.lookup k r == some v) = true
  · rw [if_pos hany]
    rw [filter_map_replace (fun r => List.lookup k r == some v) (cols.zip vals) hpnr s]
    obtain ⟨x, hx, hpx⟩ := List.any_eq_true.mp hany
    have hxf : x ∈ s.filter (fun r => List.lookup k r == some v) :=
      List.mem_filter.mpr ⟨hx, hpx⟩
    have hpos : 0 < (s.filter (fun r => List.lookup k r == some v)).length :=
      List.length_pos.mpr (by intro hnil; rw [hnil] at hxf; cases hxf)
    have hone : (s.filter (fun r => List.lookup k r == some v)).length = 1 :=
      Nat.le_antisymm hcnt hpos
    rw [hone]
    rfl
  · rw [if_neg hany]
    rw [List.filter_append]
    rw [filter_eq_nil_of_any_false _ _ (by simpa using hany)]
    simp [hpnr]

/-- Upserting a row already stored as the unique carrier of its key value
leaves the table unchanged. -/
theorem execUpsert_idem (k : String) (cols : List String) (vals : List SqlValue)
    (v : SqlValue) (hlook : List.lookup k (cols.zip vals) = some v)
    (hvnull : (v != SqlValue.null) = true)
    (s : List Row)
    (hf : s.filter (fun r => List.lookup k r == some v) = [cols.zip vals]) :
    execUpsert k cols vals s = s := by
  have hnrmem : cols.zip vals ∈ s.filter (fun r => List.lookup k r == some v) := by
    rw [hf]
    exact List.mem_singleton_self _
  have hany : s.any (fun r => List.lookup k r == some v) = true :=
    List.any_eq_true.mpr ⟨cols.zip vals, List.mem_of_mem_filter hnrmem,
      (List.mem_filter.mp hnrmem).2⟩
  have hrc : rowConflicts k v = (fun r => List.lookup k r == some v) := by
    funext r
    simp [rowConflicts, hvnull]
  simp only [execUpsert, hlook, Option.getD, hrc]
  rw [if_pos hany]
  exact map_replace_of_filter_singleton _ _ s hf

/-- A string contains `pat` whenever it can be regrouped as
`x ++ (part ++ y)` with `part` containing `pat`. -/
theorem containsStr_via (x part y pat : String) (s : String) (h : s = x ++ (part ++ y))
    (hp : containsSeg part.data pat.data = true) : containsStr s pat = true := by
  subst h
  unfold containsStr
  rw [strData_append, strData_append]
  exact containsSeg_append_right _ (containsSeg_append_left _ hp)

/-! ## Claim theorems -/

/-- C1: evaluating the Type Mapper at the spec's example schema shows the
claim fails on the code: the scalar entries of the type-mapping dict are
as the claim states (string to TEXT, number to NUMERIC, boolean to
BOOLEAN, date to TIMESTAMP), but the condition at line 78 includes the
disjunct `isinstance(field_info, (dict, list))`, which holds for every
mapping-shaped field descriptor, so the generated column specs all carry
the serialized-document type JSONB instead of the scalar types, and the
boolean default renders as `DEFAULT False`. -/
theorem C1_example_schema_code_output :
    convert_schema_to_sql_types (JValue.obj [
      ("name", .obj [("type", .str "string"), ("required", .bool true)]),
      ("mass_kg", .obj [("type", .str "number")]),
      ("reused", .obj [("type", .str "boolean"), ("default", .bool false)])])
      = Except.ok ["\"name\" JSONB NOT NULL", "\"mass_kg\" JSONB", "\"reused\" JSONB DEFAULT False"]
    ∧ type_mapping_get "string" = "TEXT"
    ∧ type_mapping_get "number" = "NUMERIC"
    ∧ type_mapping_get "boolean" = "BOOLEAN"
    ∧ type_mapping_get "date" = "TIMESTAMP"
    ∧ sql_type_of (JValue.obj [("type", JValue.str "string")]) "string" = "JSONB" := by
  refine ⟨by rfl, by rfl, by rfl, by rfl, by rfl, by rfl⟩

/-- C2: evaluating the Type Mapper on uuid-typed fields shows the claim
fails on the code: both the dict literal (lines 28-29, whose comment says
"Changed to TEXT") and every reachable path map `uuid` and `UUID` to the
serialized-document type JSONB, never a dedicated identifier type. -/
theorem C2_uuid_maps_to_serialized_document :
    type_mapping_get "uuid" = "JSONB"
    ∧ type_mapping_get "UUID" = "JSONB"
    ∧ convert_schema_to_sql_types (JValue.obj [("cap_id", .str "uuid")])
        = Except.ok ["\"cap_id\" JSONB"]
    ∧ convert_schema_to_sql_types (JValue.obj [("cap_id", .obj [("type", .str "UUID")])])
        = Except.ok ["\"cap_id\" JSONB"] := by
  refine ⟨by rfl, by rfl, by rfl, by rfl⟩

/-- C5 counterexample: the claim says normalization fails exactly when no
interpretation yields a non-empty mapping, but on a document whose
`properties` key holds an empty mapping while its `fields` key holds a
non-empty one, the code still fails (selection is by key presence, not by
fallback to the next non-empty candidate); and on a non-mapping document
the surfaced failure is an AttributeError from `schema_data.keys()` inside
the error f-string, not the SchemaShapeError ValueError. -/
theorem C5_counterexample :
    convert_schema_to_sql_types
      (JValue.obj [("properties", JValue.obj []),
                   ("fields", JValue.obj [("a", JValue.str "string")])])
      = Except.error PyErr.schemaShape
    ∧ truthy (JValue.obj [("a", JValue.str "string")]) = true
    ∧ convert_schema_to_sql_types (JValue.arr [JValue.obj [("a", JValue.str "string")]])
      = Except.error PyErr.attributeError := by
  refine ⟨by rfl, by rfl, by rfl⟩

/-- C5 (amended): the Schema Normalizer selects one candidate field
mapping by key presence (`properties` if that key is present, else
`fields` if present, else the whole document; none when the document is
not a mapping) and fails with the SchemaShapeError exactly when the
document is a mapping and the selected candidate is Python-falsy; a
non-mapping document fails with an AttributeError instead, as does a
truthy non-mapping candidate, and a truthy mapping candidate always
converts successfully to one column spec per field. -/
theorem C5_schema_failure_characterisation (d : JValue) :
    (convert_schema_to_sql_types d = Except.error PyErr.schemaShape ↔
      ((∃ fs, d = JValue.obj fs) ∧ truthy ((selected_properties d).getD JValue.null) = false))
    ∧ (∀ gs, selected_properties d = some (JValue.obj gs) → truthy (JValue.obj gs) = true →
        convert_schema_to_sql_types d = Except.ok (gs.map (fun p => column_spec p.1 p.2))) := by
  constructor
  · cases d with
    | obj fs =>
      obtain ⟨p, hp⟩ : ∃ p, selected_properties (JValue.obj fs) = some p := ⟨_, rfl⟩
      simp only [convert_schema_to_sql_types, hp, Option.getD]
      by_cases ht : truthy p
      · cases p <;> simp_all
      · simp only [Bool.not_eq_true] at ht
        simp [ht]
    | null => simp [convert_schema_to_sql_types, selected_properties]
    | bool b => simp [convert_schema_to_sql_types, selected_properties]
    | num n => simp [convert_schema_to_sql_types, selected_properties]
    | str s => simp [convert_schema_to_sql_types, selected_properties]
    | arr xs => simp [convert_schema_to_sql_types, selected_properties]
  · intro gs hsel htr
    simp [convert_schema_to_sql_types, hsel, htr]

/-- C7 counterexample: table identifiers are not quoted in the issued
statements.  The plain insert for table `launches` contains the bare
interpolation `INSERT INTO launches (` and nowhere the quoted identifier,
and the create-table statement for the reserved word `order` likewise
contains no quoted table identifier. -/
theorem C7_counterexample :
    containsStr (plain_insert_sql "launches" ["name"]) "\"launches\"" = false
    ∧ containsStr (plain_insert_sql "launches" ["name"]) "INSERT INTO launches (\"name\")" = true
    ∧ containsStr (create_table_sql "order" ["\"name\" TEXT"]) "\"order\"" = false
    ∧ containsStr (create_table_sql "order" ["\"name\" TEXT"]) "CREATE TABLE IF NOT EXISTS order (" = true := by
  refine ⟨by decide, by decide, by decide, by decide⟩

set_option maxRecDepth 16384 in
/-- C7 (amended): in the issued statements, schema-derived and live column
identifiers are always double-quoted — each live column appears quoted in
the column list of both insert forms and the conflict key appears quoted
in the conflict target — but table identifiers are interpolated bare, with
no surrounding quotes, in the insert statements and the create-table
statement (as are the synthetic `id` and `created_at` column names the
DDL adds). -/
theorem C7_identifier_quoting (table_name : String) (columns_info : List String)
    (sql_columns : List String) (unique_f c : String) (hc : c ∈ columns_info) :
    containsStr (plain_insert_sql table_name columns_info) ("\"" ++ c ++ "\"") = true
    ∧ containsStr (upsert_sql table_name columns_info unique_f) ("\"" ++ c ++ "\"") = true
    ∧ containsStr (upsert_sql table_name columns_info unique_f)
        ("ON CONFLICT (\"" ++ unique_f ++ "\") DO UPDATE") = true
    ∧ containsStr (plain_insert_sql table_name columns_info)
        ("INSERT INTO " ++ table_name ++ " (") = true
    ∧ containsStr (create_table_sql table_name sql_columns)
        ("CREATE TABLE IF NOT EXISTS " ++ table_name ++ " (") = true := by
  refine ⟨?_, ?_, ?_, ?_, ?_⟩
  · refine containsStr_via ("\n                                INSERT INTO " ++ table_name ++ " (")
      (columns_str columns_info)
      (")\n                                VALUES (" ++ placeholders_str columns_info
        ++ ");\n                            ") _ _ ?_
      (containsSeg_columns_str columns_info c hc)
    apply String.ext
    simp [plain_insert_sql, strData_append, List.append_assoc]
  · refine containsStr_via ("\n                                INSERT INTO " ++ table_name ++ " (")
      (columns_str columns_info)
      (")\n                                VALUES (" ++ placeholders_str columns_info
        ++ ")\n                                ON CONFLICT (\"" ++ unique_f
        ++ "\") DO UPDATE\n                                SET (" ++ columns_str columns_info
        ++ ") = (" ++ placeholders_str columns_info ++ ");\n                            ") _ _ ?_
      (containsSeg_columns_str columns_info c hc)
    apply String.ext
    simp [upsert_sql, strData_append, List.append_assoc]
  · refine containsStr_via ("\n                                INSERT INTO " ++ table_name
        ++ " (" ++ columns_str columns_info ++ ")\n                                VALUES ("
        ++ placeholders_str columns_info ++ ")\n                                ")
      ("ON CONFLICT (\"" ++ unique_f ++ "\") DO UPDATE")
      ("\n                                SET (" ++ columns_str columns_info
        ++ ") = (" ++ placeholders_str columns_info ++ ");\n                            ") _ _ ?_
      (containsSeg_of_startsWith (startsWithSeg_self _))
    apply String.ext
    simp [upsert_sql, strData_append, List.append_assoc]
  · refine containsStr_via "\n                                "
      ("INSERT INTO " ++ table_name ++ " (")
      (columns_str columns_info ++ ")\n                                VALUES ("
        ++ placeholders_str columns_info ++ ");\n                            ") _ _ ?_
      (containsSeg_of_startsWith (startsWithSeg_self _))
    apply String.ext
    simp [plain_insert_sql, strData_append, List.append_assoc]
  · refine containsStr_via "\n            "
      ("CREATE TABLE IF NOT EXISTS " ++ table_name ++ " (")
      ("\n                id SERIAL PRIMARY KEY,\n                " ++ pyJoin ", " sql_columns
        ++ ",\n                created_at TIMESTAMP DEFAULT CURRENT_TIMESTAMP\n            );\n            ")
      _ _ ?_ (containsSeg_of_startsWith (startsWithSeg_self _))
    apply String.ext
    simp [create_table_sql, strData_append, List.append_assoc]

/-- C7 witness: the amended quoting facts at a concrete statement. -/
theorem C7_identifier_quoting_witness :
    containsStr (plain_insert_sql "launches" ["name", "mass_kg"]) ("\"" ++ "name" ++ "\"") = true
    ∧ containsStr (upsert_sql "launches" ["name", "mass_kg"] "name") ("\"" ++ "name" ++ "\"") = true
    ∧ containsStr (upsert_sql "launches" ["name", "mass_kg"] "name")
        ("ON CONFLICT (\"" ++ "name" ++ "\") DO UPDATE") = true
    ∧ containsStr (plain_insert_sql "launches" ["name", "mass_kg"])
        ("INSERT INTO " ++ "launches" ++ " (") = true
    ∧ containsStr (create_table_sql "launches" ["\"name\" TEXT"])
        ("CREATE TABLE IF NOT EXISTS " ++ "launches" ++ " (") = true :=
  C7_identifier_quoting "launches" ["name", "mass_kg"] ["\"name\" TEXT"] "name" "name"
    (by decide)

/-- C4: the conflict key is chosen deterministically by the fixed
preference order — `serial` if present in the live column set, else
`name` if present, else none — and when there is no conflict key, loading
the same record twice issues plain inserts and appends two equal rows
rather than failing. -/
theorem C4_conflict_key_choice (columns_info : List String) (t : List Row)
    (fs : List (String × JValue)) (hnone : unique_field columns_info = none)
    (hne : columns_info ≠ []) :
    (∀ cols : List String, unique_field cols =
      (if cols.contains "serial" then some "serial"
       else if cols.contains "name" then some "name" else none))
    ∧ (insert_or_update columns_info
        ((insert_or_update columns_info t (JValue.obj fs)).2) (JValue.obj fs)).2
      = t ++ [boundRow columns_info fs, boundRow columns_info fs] := by
  constructor
  · intro cols
    rfl
  · cases columns_info with
    | nil => exact absurd rfl hne
    | cons a cs =>
      simp [insert_or_update, normalize_records, run_records, process_record, hnone,
        execPlainInsert, boundRow]

/-- C4 witness: a live column set with neither `serial` nor `name`
appends the same record twice. -/
theorem C4_conflict_key_choice_witness :
    (∀ cols : List String, unique_field cols =
      (if cols.contains "serial" then some "serial"
       else if cols.contains "name" then some "name" else none))
    ∧ (insert_or_update ["color"]
        ((insert_or_update ["color"] [] (JValue.obj [("color", JValue.str "red")])).2)
        (JValue.obj [("color", JValue.str "red")])).2
      = [] ++ [boundRow ["color"] [("color", JValue.str "red")],
               boundRow ["color"] [("color", JValue.str "red")]] :=
  C4_conflict_key_choice ["color"] [] [("color", JValue.str "red")] (by rfl) (by simp)

/-- C6: for every record, one value is bound per live column name — the
live set excludes the identity column `id` and the timestamp column
`created_at` — where an absent key binds SQL NULL, a mapping- or
list-shaped value is serialized to the document representation before
binding, and a scalar value passes through unchanged. -/
theorem C6_value_binding (all_columns : List String) (fs : List (String × JValue))
    (c : String) (hc : c ∈ liveColumns all_columns) :
    c ≠ "id" ∧ c ≠ "created_at"
    ∧ ((liveColumns all_columns).map (bindValue fs)).length
        = (liveColumns all_columns).length
    ∧ List.lookup c (boundRow (liveColumns all_columns) fs) = some (bindValue fs c)
    ∧ (getKey fs c = none → bindValue fs c = SqlValue.null)
    ∧ (∀ v, getKey fs c = some v → isStructural v = true →
        bindValue fs c = SqlValue.jsonV v)
    ∧ (∀ v, getKey fs c = some v → isStructural v = false →
        bindValue fs c = scalarPass v) := by
  have hp := (List.mem_filter.mp hc).2
  simp only [Bool.not_eq_true', Bool.or_eq_false_iff, beq_eq_false_iff_ne] at hp
  refine ⟨hp.1, hp.2, by simp, ?_, ?_, ?_, ?_⟩
  · exact lookup_zip_map (liveColumns all_columns) (bindValue fs) c hc
  · intro h
    simp [bindValue, h]
  · intro v hv hstruct
    simp [bindValue, hv, hstruct]
  · intro v hv hstruct
    simp [bindValue, hv, hstruct]

/-- C6 witness: the binding facts at a concrete record and column set. -/
theorem C6_value_binding_witness :
    "name" ≠ "id" ∧ "name" ≠ "created_at"
    ∧ ((liveColumns ["id", "name", "created_at"]).map
        (bindValue [("name", JValue.str "C101")])).length
        = (liveColumns ["id", "name", "created_at"]).length
    ∧ List.lookup "name" (boundRow (liveColumns ["id", "name", "created_at"])
        [("name", JValue.str "C101")])
        = some (bindValue [("name", JValue.str "C101")] "name")
    ∧ (getKey [("name", JValue.str "C101")] "name" = none →
        bindValue [("name", JValue.str "C101")] "name" = SqlValue.null)
    ∧ (∀ v, getKey [("name", JValue.str "C101")] "name" = some v → isStructural v = true →
        bindValue [("name", JValue.str "C101")] "name" = SqlValue.jsonV v)
    ∧ (∀ v, getKey [("name", JValue.str "C101")] "name" = some v → isStructural v = false →
        bindValue [("name", JValue.str "C101")] "name" = scalarPass v) :=
  C6_value_binding ["id", "name", "created_at"] [("name", JValue.str "C101")] "name"
    (by simp [liveColumns])

/-- Processing a batch succeeds exactly when every record is an object;
otherwise it stops at the first non-object record with the record-shape
failure. -/
theorem run_records_cases (columns_info : List String) :
    ∀ (rs : List JValue) (t : List Row),
      (rs.all isObjJ = true ∧ ∃ t', run_records columns_info t rs = Except.ok t')
      ∨ (rs.all isObjJ = false
          ∧ run_records columns_info t rs = Except.error PyErr.recordShape) := by
  intro rs
  induction rs with
  | nil => exact fun t => Or.inl ⟨rfl, t, rfl⟩
  | cons r rest ih =>
    intro t
    cases r with
    | obj fs =>
      obtain ⟨t1, hpr⟩ : ∃ t1, process_record columns_info t (JValue.obj fs)
          = Except.ok t1 := by
        cases h : unique_field columns_info with
        | none =>
          exact ⟨execPlainInsert columns_info (columns_info.map (bindValue fs)) t,
            by simp [process_record, h]⟩
        | some uf =>
          exact ⟨execUpsert uf columns_info (columns_info.map (bindValue fs)) t,
            by simp [process_record, h]⟩
      rcases ih t1 with ⟨hall, t', hok⟩ | ⟨hall, herr⟩
      · exact Or.inl ⟨by simp [isObjJ, hall], t', by simp [run_records, hpr, hok]⟩
      · exact Or.inr ⟨by simp [isObjJ, hall], by simp [run_records, hpr, herr]⟩
    | null => exact Or.inr ⟨by simp [isObjJ], by simp [run_records, process_record]⟩
    | bool b => exact Or.inr ⟨by simp [isObjJ], by simp [run_records, process_record]⟩
    | num n => exact Or.inr ⟨by simp [isObjJ], by simp [run_records, process_record]⟩
    | str s => exact Or.inr ⟨by simp [isObjJ], by simp [run_records, process_record]⟩
    | arr xs => exact Or.inr ⟨by simp [isObjJ], by simp [run_records, process_record]⟩

/-- C8: the load fails with the no-columns failure when live catalog
introspection yields zero usable columns; given a usable column set, it
fails with the record-shape failure exactly when the records input is
neither an object nor a list of objects; and a single object input is
processed identically to its one-element-list normalization. -/
theorem C8_load_guards (columns_info : List String) (t : List Row) (data : JValue)
    (hcols : columns_info ≠ []) :
    (insert_or_update [] t data).1 = Except.error PyErr.noColumns
    ∧ ((insert_or_update columns_info t data).1 = Except.error PyErr.recordShape
        ↔ recordsWellShaped data = false)
    ∧ (∀ fs, insert_or_update columns_info t (JValue.obj fs)
        = insert_or_update columns_info t (JValue.arr [JValue.obj fs])) := by
  have hbool : columns_info.isEmpty = false := by
    cases columns_info with
    | nil => exact absurd rfl hcols
    | cons a l => rfl
  refine ⟨rfl, ?_, fun fs => rfl⟩
  have hws : recordsWellShaped data = (normalize_records data).all isObjJ := by
    cases data <;> rfl
  rw [hws]
  rcases run_records_cases columns_info (normalize_records data) t with
    ⟨hall, t', hok⟩ | ⟨hall, herr⟩
  · simp [insert_or_update, hbool, hok, hall]
  · simp [insert_or_update, hbool, herr, hall]

/-- C8 witness: the guard facts at a concrete scalar records input. -/
theorem C8_load_guards_witness :
    (insert_or_update [] [] (JValue.num 5)).1 = Except.error PyErr.noColumns
    ∧ ((insert_or_update ["name"] [] (JValue.num 5)).1 = Except.error PyErr.recordShape
        ↔ recordsWellShaped (JValue.num 5) = false)
    ∧ (∀ fs, insert_or_update ["name"] [] (JValue.obj fs)
        = insert_or_update ["name"] [] (JValue.arr [JValue.obj fs])) :=
  C8_load_guards ["name"] [] (JValue.num 5) (by simp)

/-- C10: the batch runs inside a single transaction committed once at the
end: on any failure the observable table state is the original one (no
record of the batch persists), and on success the committed state is
exactly the state after executing every record's statement in order. -/
theorem C10_batch_atomicity (columns_info : List String) (t : List Row) (data : JValue) :
    (∀ e, (insert_or_update columns_info t data).1 = Except.error e →
      (insert_or_update columns_info t data).2 = t)
    ∧ (∀ t', run_records columns_info t (normalize_records data) = Except.ok t' →
        columns_info ≠ [] →
        insert_or_update columns_info t data = (Except.ok (), t')) := by
  constructor
  · intro e he
    by_cases hb : columns_info.isEmpty
    · simp [insert_or_update, hb]
    · simp only [Bool.not_eq_true] at hb
      cases hres : run_records columns_info t (normalize_records data) with
      | ok t'' => simp [insert_or_update, hb, hres] at he
      | error e' => simp [insert_or_update, hb, hres]
  · intro t' hok hne
    have hb : columns_info.isEmpty = false := by
      cases columns_info with
      | nil => exact absurd rfl hne
      | cons a l => rfl
    simp [insert_or_update, hb, hok]

/-- C3: when the live column set yields a conflict key and the record
binds a non-null scalar value for it, loading the same record twice —
starting from any table in which that key value occurs at most once, as
the unique index guarantees — leaves exactly one row carrying that key
value, namely the row bound from the (second) load, and the second load
changes nothing beyond the first. -/
theorem C3_upsert_idempotent (columns_info : List String) (t : List Row)
    (fs : List (String × JValue)) (k : String) (t1 t2 : List Row)
    (hk : unique_field columns_info = some k)
    (hscalar : isScalarKey (bindValue fs k) = true)
    (huniq : (t.filter (fun r => List.lookup k r == some (bindValue fs k))).length ≤ 1)
    (ht1 : t1 = (insert_or_update columns_info t (JValue.obj fs)).2)
    (ht2 : t2 = (insert_or_update columns_info t1 (JValue.obj fs)).2) :
    t2 = t1
    ∧ t2.filter (fun r => List.lookup k r == some (bindValue fs k))
        = [boundRow columns_info fs] := by
  have hmem : k ∈ columns_info := unique_field_mem hk
  have hne : columns_info.isEmpty = false := by
    cases columns_info with
    | nil => cases hmem
    | cons a l => rfl
  have hred : ∀ s : List Row, (insert_or_update columns_info s (JValue.obj fs)).2
      = execUpsert k columns_info (columns_info.map (bindValue fs)) s := by
    intro s
    simp [insert_or_update, hne, normalize_records, run_records, process_record, hk]
  have hlook : List.lookup k (columns_info.zip (columns_info.map (bindValue fs)))
      = some (bindValue fs k) := lookup_zip_map columns_info (bindValue fs) k hmem
  have hvnull := scalar_ne_null hscalar
  have hvself := beqv_self_of_scalar hscalar
  have hf1 : t1.filter (fun r => List.lookup k r == some (bindValue fs k))
      = [columns_info.zip (columns_info.map (bindValue fs))] := by
    rw [ht1, hred t]
    exact execUpsert_filter_step k columns_info _ _ hlook hvnull hvself t huniq
  have ht2' : t2 = t1 := by
    rw [ht2, hred t1]
    exact execUpsert_idem k columns_info _ _ hlook hvnull t1 hf1
  refine ⟨ht2', ?_⟩
  rw [ht2', hf1]
  rfl

/-- C3 witness: loading the Dragon record twice into an empty `capsules`
table keyed by `name` yields the single expected row, twice over. -/
theorem C3_upsert_idempotent_witness :
    [[("name", SqlValue.strV "Dragon"), ("mass_kg", SqlValue.numV 1200)]]
      = [[("name", SqlValue.strV "Dragon"), ("mass_kg", SqlValue.numV 1200)]]
    ∧ ([[("name", SqlValue.strV "Dragon"), ("mass_kg", SqlValue.numV 1200)]] : List Row).filter
        (fun r => List.lookup "name" r
          == some (bindValue [("name", JValue.str "Dragon"), ("mass_kg", JValue.num 1200)] "name"))
        = [boundRow ["name", "mass_kg"]
            [("name", JValue.str "Dragon"), ("mass_kg", JValue.num 1200)]] :=
  C3_upsert_idempotent ["name", "mass_kg"] []
    [("name", JValue.str "Dragon"), ("mass_kg", JValue.num 1200)] "name"
    [[("name", SqlValue.strV "Dragon"), ("mass_kg", SqlValue.numV 1200)]]
    [[("name", SqlValue.strV "Dragon"), ("mass_kg", SqlValue.numV 1200)]]
    (by rfl) (by rfl) (by simp) (by rfl) (by rfl)

/-- C10 witness: a batch whose second record fails mid-run leaves the
table exactly as it was, although the first record's statement had
already executed inside the transaction. -/
theorem C10_batch_atomicity_witness :
    (insert_or_update ["name"] [[("name", SqlValue.strV "A")]]
      (JValue.arr [JValue.obj [("name", JValue.str "B")], JValue.num 7])).1
      = Except.error PyErr.recordShape
    ∧ (insert_or_update ["name"] [[("name", SqlValue.strV "A")]]
      (JValue.arr [JValue.obj [("name", JValue.str "B")], JValue.num 7])).2
      = [[("name", SqlValue.strV "A")]] := by
  refine ⟨by rfl, ?_⟩
  exact (C10_batch_atomicity ["name"] [[("name", SqlValue.strV "A")]]
    (JValue.arr [JValue.obj [("name", JValue.str "B")], JValue.num 7])).1
    PyErr.recordShape (by rfl)

end SpaceXETL
